import Mathlib

/-!
Verification of the protocol-translation core of `claude_proxy_server.py`
(the Gromozeka ↔ Claude Code SDK bridge).

The embedding models:
* JSON values (`JValue`) as exchanged on the line protocol, together with the
  Python dynamic-typing behaviours the code relies on (dict `get`, truthiness,
  iteration over non-list values, `AttributeError`/`KeyError`/`TypeError`);
* SDK upstream events (`SDKMessage`) as a closed sum covering the four
  recognized dataclasses, an unrecognized-variant case carrying its runtime
  type name and string rendering, and a case for an event whose translation
  raises (the `try`/`except` in `convert_to_stream_json` exists exactly for
  these);
* the mutable proxy state (`ProxyState`: the immutable locally generated
  `session_id` and the mutable `active_session_id`);
* `convert_to_stream_json` (upstream event → outbound envelope, with the
  session-tracker side effect of `init` events) and `handle_input`
  (inbound line → upstream calls and printed lines), each mirroring the
  Python control flow statement by statement;
* the two loops, as a fold of the per-event step over an interleaved
  sequence of inbound lines and upstream events.
-/

namespace ClaudeProxy

/-- A JSON value (the payload of one protocol line), also standing for the
Python runtime value obtained from `json.loads` / passed to `json.dumps`.
`null` doubles as Python `None`. An `obj` is a dict with unique keys, in
insertion order. -/
inductive JValue where
  | null
  | bool (b : Bool)
  | num (n : Int)
  | str (s : String)
  | arr (xs : List JValue)
  | obj (fields : List (String × JValue))

/-- Python `d.get(key)` on a dict: the value if the key is present
(`none` = Python `None` when absent). -/
def jGet : List (String × JValue) → String → Option JValue
  | [], _ => none
  | (k, v) :: rest, key => if k = key then some v else jGet rest key

/-- Python `type(v).__name__` for the values a JSON document can contain. -/
def jTypeName : JValue → String
  | .null => "NoneType"
  | .bool _ => "bool"
  | .num _ => "int"
  | .str _ => "str"
  | .arr _ => "list"
  | .obj _ => "dict"

/-- Python truthiness of a JSON-representable value. -/
def jTruthy : JValue → Bool
  | .null => false
  | .bool b => b
  | .num n => n != 0
  | .str s => s != ""
  | .arr xs => !xs.isEmpty
  | .obj fs => !fs.isEmpty

/-- Python `for block in v:` — what iteration yields, or the `TypeError`
it raises: a list yields its elements, a dict its keys, a string its
characters (as one-character strings); other values are not iterable. -/
def python_iter : JValue → Except String (List JValue)
  | .arr xs => .ok xs
  | .obj fs => .ok (fs.map fun p => .str p.1)
  | .str s => .ok (s.data.map fun c => .str (String.mk [c]))
  | v => .error (jTypeName v ++ " object is not iterable")

/-- An SDK content block (`TextBlock`, `ToolUseBlock`, `ToolResultBlock`,
`ThinkingBlock`), plus `unsupported` for any other block kind, which
`_convert_content_blocks` silently drops. `input`, `content` and `is_error`
are forwarded verbatim, so they are kept as opaque JSON values. -/
inductive ContentBlock where
  | text (text : String)
  | toolUse (id name : String) (input : JValue)
  | toolResult (tool_use_id : String) (content : JValue) (is_error : JValue)
  | thinking (thinking signature : String)
  | unsupported

/-- The `content` attribute of an SDK `UserMessage`/`AssistantMessage`:
a plain string, a list of blocks, or anything else (the fallback arm of
`_convert_content_blocks` renders it with `str`). -/
inductive MessageContent where
  | str (s : String)
  | blocks (bs : List ContentBlock)
  | fallback (strForm : String)

/-- The block-list arm of `ClaudeProxy._convert_content_blocks`
(the `for block in content` loop, lines 151-175): each recognized block
variant maps to its fixed wire object; unrecognized blocks are dropped. -/
def convert_block_list : List ContentBlock → List JValue
  | [] => []
  | .text t :: rest =>
      .obj [("type", .str "text"), ("text", .str t)] :: convert_block_list rest
  | .toolUse i n inp :: rest =>
      .obj [("type", .str "tool_use"), ("id", .str i), ("name", .str n),
            ("input", inp)] :: convert_block_list rest
  | .toolResult tid c ie :: rest =>
      .obj [("type", .str "tool_result"), ("tool_use_id", .str tid),
            ("content", c), ("is_error", ie)] :: convert_block_list rest
  | .thinking th sig :: rest =>
      .obj [("type", .str "thinking"), ("thinking", .str th),
            ("signature", .str sig)] :: convert_block_list rest
  | .unsupported :: rest => convert_block_list rest

/-- `ClaudeProxy._convert_content_blocks` (lines 143-178): a plain string
becomes one synthetic text block; a list is converted block by block;
anything else is rendered with `str` into one text block. -/
def convert_content_blocks : MessageContent → List JValue
  | .str s => [.obj [("type", .str "text"), ("text", .str s)]]
  | .blocks bs => convert_block_list bs
  | .fallback f => [.obj [("type", .str "text"), ("text", .str f)]]

/-- An upstream SDK event, as dispatched on by `isinstance` checks in
`convert_to_stream_json`. `unknown` is any event of an unrecognized runtime
type, carrying `type(message).__name__` and `str(message)`. `raising`
stands for an event whose translation raises an exception with the given
`str(e)` — the case the surrounding `try`/`except` exists for. -/
inductive SDKMessage where
  | user (content : MessageContent)
  | assistant (content : MessageContent) (model : String)
  | system (subtype : String) (data : List (String × JValue))
  | result (subtype : String) (duration_ms duration_api_ms : Int)
      (is_error : Bool) (num_turns : Int) (session_id : Option String)
      (total_cost_usd usage res : JValue)
  | unknown (typeName strForm : String)
  | raising (typeName : String) (exn : String)

/-- `type(message).__name__` for an upstream event. -/
def msgTypeName : SDKMessage → String
  | .user _ => "UserMessage"
  | .assistant _ _ => "AssistantMessage"
  | .system _ _ => "SystemMessage"
  | .result _ _ _ _ _ _ _ _ _ => "ResultMessage"
  | .unknown n _ => n
  | .raising n _ => n

/-- The mutable state of `ClaudeProxy`: `session_id` is the locally
generated uuid (set once in `__init__`, never reassigned), and
`active_session_id` the mutable active id. The latter is a `JValue`
because the code stores whatever JSON value the client supplied
(`data.get("session_id", ...)`) and starts from Python `None`. -/
structure ProxyState where
  session_id : String
  active_session_id : JValue

/-- The body of `ClaudeProxy.convert_to_stream_json` (the code inside its
`try`, lines 71-134): dispatch on the event's runtime variant, with the
session-tracker update on `init` system events. Returns `.error str_e`
when translation raises. -/
def convert_to_stream_json_body (m : SDKMessage) (st : ProxyState) :
    Except String (JValue × ProxyState) :=
  match m with
  | .user c =>
      .ok (.obj [("type", .str "user"),
                 ("message", .obj [("role", .str "user"),
                                   ("content", .arr (convert_content_blocks c))]),
                 ("session_id", st.active_session_id)], st)
  | .assistant c model =>
      .ok (.obj [("type", .str "assistant"),
                 ("message", .obj [("role", .str "assistant"),
                                   ("content", .arr (convert_content_blocks c)),
                                   ("model", .str model)]),
                 ("session_id", st.active_session_id)], st)
  | .system sub data =>
      let st1 :=
        if sub = "init" then
          match jGet data "session_id" with
          | some v => { st with active_session_id := v }
          | none =>
            if jTruthy st.active_session_id then st
            else { st with active_session_id := .str st.session_id }
        else st
      .ok (.obj [("type", .str "system"), ("subtype", .str sub),
                 ("data", .obj data),
                 ("session_id", st1.active_session_id)], st1)
  | .result sub dms dams ie nt sid tcu us res =>
      .ok (.obj [("type", .str "result"), ("subtype", .str sub),
                 ("duration_ms", .num dms), ("duration_api_ms", .num dams),
                 ("is_error", .bool ie), ("num_turns", .num nt),
                 ("session_id",
                   match sid with
                   | some s => if s = "" then st.active_session_id else .str s
                   | none => st.active_session_id),
                 ("total_cost_usd", tcu), ("usage", us), ("result", res)], st)
  | .unknown n s =>
      .ok (.obj [("type", .str "system"), ("subtype", .str "unknown_message"),
                 ("data", .obj [("message_type", .str n),
                                ("content", .str s)])], st)
  | .raising _ e => .error e

/-- `ClaudeProxy.convert_to_stream_json` (lines 69-141): the body under its
`try`/`except Exception`, the handler returning the `conversion_error`
record built from `str(e)` and `type(message).__name__`. Every branch of
the Python function returns a record, so the result is a record and the
(possibly updated) state. -/
def convert_to_stream_json (m : SDKMessage) (st : ProxyState) :
    JValue × ProxyState :=
  match convert_to_stream_json_body m st with
  | .ok r => r
  | .error e =>
      (.obj [("type", .str "system"), ("subtype", .str "conversion_error"),
             ("data", .obj [("error", .str e),
                            ("message_type", .str (msgTypeName m))])], st)

/-- An upstream SDK call made by `handle_input`
(`self.client.query(...)` / `self.client.interrupt()`). -/
inductive UpstreamCall where
  | query (text : String) (session_id : JValue)
  | interrupt

/-- One observable effect of the bridge, in chronological order:
a line printed to stdout or an upstream SDK call. -/
inductive Ev where
  | print (v : JValue)
  | call (c : UpstreamCall)

/-- The `parse_error` record emitted for a line that is not valid JSON
(lines 224-230); `err` is `str(e)` of the `JSONDecodeError`. -/
def parse_error_record (line err : String) : JValue :=
  .obj [("type", .str "system"), ("subtype", .str "parse_error"),
        ("data", .obj [("error", .str ("Invalid JSON: " ++ err)),
                       ("line", .str line)])]

/-- The generic `error` record emitted by `handle_input`'s
`except Exception` handler (lines 231-237). -/
def generic_error_record (e : String) : JValue :=
  .obj [("type", .str "system"), ("subtype", .str "error"),
        ("data", .obj [("error", .str e)])]

/-- The `control_response` line emitted after an interrupt
(lines 214-222). -/
def control_response_record (request_id : JValue) : JValue :=
  .obj [("type", .str "control_response"),
        ("response", .obj [("request_id", request_id),
                           ("subtype", .str "interrupt"),
                           ("error", .null)])]

/-- The text-extraction loop of `handle_input` (lines 195-198): over the
iterated blocks, concatenate `block.get("text", "")` of every dict block
whose `"type"` is `"text"`, skipping everything else; `+=` raises a
`TypeError` if a present `"text"` value is not a string. -/
def extract_text_content : List JValue → Except String String
  | [] => .ok ""
  | b :: rest =>
    match b with
    | .obj bf =>
      match jGet bf "type" with
      | some (.str t) =>
        if t = "text" then
          match (jGet bf "text").getD (.str "") with
          | .str s => (extract_text_content rest).map fun r => s ++ r
          | v => .error ("can only concatenate str (not " ++ jTypeName v ++
                         ") to str")
        else extract_text_content rest
      | _ => extract_text_content rest
    | _ => extract_text_content rest

/-- An inbound stdin line: either not valid JSON (with the decoder's
message) or the parsed JSON value. -/
inductive InputLine where
  | notJSON (raw err : String)
  | json (v : JValue)

/-- The body of `ClaudeProxy.handle_input` after `json.loads` succeeded
(lines 185-222), mirrored statement by statement, with Python's dynamic
failures made explicit: `.error (str_e, st)` is an exception reaching the
`except Exception` handler with the state as already mutated at raise time.
Effects are listed chronologically. -/
def handle_input_body (v : JValue) (st : ProxyState) :
    Except (String × ProxyState) (List Ev × ProxyState) :=
  match v with
  | .obj fs =>
    match jGet fs "type" with
    | some (.str t) =>
      if t = "user" then
        match jGet fs "message" with
        | none => .error ("KeyError: message", st)
        | some md =>
          match md with
          | .obj mfs =>
            let content_blocks := (jGet mfs "content").getD (.arr [])
            let session_id := (jGet fs "session_id").getD (.str st.session_id)
            let st1 : ProxyState := { st with active_session_id := session_id }
            match python_iter content_blocks with
            | .error e => .error (e, st1)
            | .ok blocks =>
              match extract_text_content blocks with
              | .error e => .error (e, st1)
              | .ok text => .ok ([.call (.query text session_id)], st1)
          | _ => .error (jTypeName md ++ " object has no attribute get", st)
      else if t = "control_request" then
        let request_id := (jGet fs "request_id").getD .null
        match (jGet fs "request").getD (.obj []) with
        | .obj rfs =>
          match jGet rfs "subtype" with
          | some (.str sub) =>
            if sub = "interrupt" then
              .ok ([.call .interrupt,
                    .print (control_response_record request_id)], st)
            else .ok ([], st)
          | _ => .ok ([], st)
        | req => .error (jTypeName req ++ " object has no attribute get", st)
      else .ok ([], st)
    | _ => .ok ([], st)
  | _ => .error (jTypeName v ++ " object has no attribute get", st)

/-- `ClaudeProxy.handle_input` (lines 180-237): a line that fails JSON
parsing yields one `parse_error` record; otherwise the body runs under
`except Exception`, whose handler prints one generic `error` record.
The function itself never raises. -/
def handle_input (l : InputLine) (st : ProxyState) : List Ev × ProxyState :=
  match l with
  | .notJSON raw err => ([.print (parse_error_record raw err)], st)
  | .json v =>
    match handle_input_body v st with
    | .ok r => r
    | .error (e, st1) => ([.print (generic_error_record e)], st1)

/-- One event the bridge reacts to: an inbound stdin line (read loop) or an
upstream SDK event (receive loop). The cooperative single-threaded
scheduler serializes them, so a run of the bridge is a sequence of these. -/
inductive SysEvent where
  | inbound (l : InputLine)
  | upstream (m : SDKMessage)

/-- One scheduler step: an inbound line goes through `handle_input`; an
upstream event is translated and its envelope printed
(`receive_from_claude`, lines 53-57). -/
def step (e : SysEvent) (st : ProxyState) : List Ev × ProxyState :=
  match e with
  | .inbound l => handle_input l st
  | .upstream m =>
    let r := convert_to_stream_json m st
    ([.print r.1], r.2)

/-- The state after processing a sequence of interleaved events. -/
def runSeq : List SysEvent → ProxyState → ProxyState
  | [], st => st
  | e :: rest, st => runSeq rest (step e st).2

/-- The read loop over inbound lines (lines 253-260), with all effects
concatenated in order. -/
def run_lines : List InputLine → ProxyState → List Ev × ProxyState
  | [], st => ([], st)
  | l :: rest, st =>
    let r := handle_input l st
    let r2 := run_lines rest r.2
    (r.1 ++ r2.1, r2.2)

/-- The state right after `run` seeds the session
(line 245: `self.active_session_id = self.session_id`), before any input
is accepted. -/
def seeded_state (localId : String) : ProxyState :=
  { session_id := localId, active_session_id := .str localId }

/-- Specification-side value: the concatenation, in order, of the `text`
fields of the `text` blocks of a sequence, ignoring all other block
kinds (the round-trip expectation of §8 of the spec). -/
def text_block_concat : List ContentBlock → String
  | [] => ""
  | .text t :: rest => t ++ text_block_concat rest
  | _ :: rest => text_block_concat rest

/-- Specification-side value: the `session_id` a result envelope should
carry — the event's own session id when present and non-empty, else the
current active id (the amended form of the §4.2 result rule). -/
def result_session_id_spec (sid : Option String) (active : JValue) : JValue :=
  match sid with
  | some s => if s = "" then active else .str s
  | none => active

/-- The active id is a non-empty string. -/
def good_active : JValue → Prop
  | .str s => s ≠ ""
  | _ => False

/-- The local id is non-empty and the active id is a non-empty string. -/
def good_state (st : ProxyState) : Prop :=
  st.session_id ≠ "" ∧ good_active st.active_session_id

/-- A session id supplied by a mutation source is either absent or a
non-empty string. -/
def good_sid : Option JValue → Prop
  | none => True
  | some (.str s) => s ≠ ""
  | some _ => False

/-- An event whose session-id payload (if it mutates the active id at all)
is absent or a non-empty string: client user lines via their `session_id`
field, upstream `init` system events via `data.session_id`. -/
def good_event : SysEvent → Prop
  | .inbound (.json (.obj fs)) =>
      jGet fs "type" = some (.str "user") → good_sid (jGet fs "session_id")
  | .inbound _ => True
  | .upstream (.system sub data) =>
      sub = "init" → good_sid (jGet data "session_id")
  | .upstream _ => True

/-- C1: any exception raised while translating one upstream event is caught
by `convert_to_stream_json` and turned into exactly one
`system`/`conversion_error` record with `data = {error: str(e),
message_type: type(message).__name__}`, emitted in place of the envelope
for the failed event, with the state untouched; the function is total, so
no exception ever propagates to the caller. -/
theorem conversion_error_containment (m : SDKMessage) (st : ProxyState)
    (e : String) (h : convert_to_stream_json_body m st = .error e) :
    convert_to_stream_json m st =
      (.obj [("type", .str "system"), ("subtype", .str "conversion_error"),
             ("data", .obj [("error", .str e),
                            ("message_type", .str (msgTypeName m))])], st) := by
  unfold convert_to_stream_json
  rw [h]

theorem conversion_error_containment_witness :
    convert_to_stream_json_body (.raising "StreamEvent" "boom")
        (seeded_state "L") = .error "boom" ∧
    convert_to_stream_json (.raising "StreamEvent" "boom") (seeded_state "L") =
      (.obj [("type", .str "system"), ("subtype", .str "conversion_error"),
             ("data", .obj [("error", .str "boom"),
                            ("message_type", .str "StreamEvent")])],
       seeded_state "L") :=
  ⟨rfl, conversion_error_containment (.raising "StreamEvent" "boom")
    (seeded_state "L") "boom" rfl⟩

/-- C2: an upstream event of an unrecognized runtime variant never raises
and translates to the `system`/`unknown_message` record carrying the
runtime type name and the string rendering of the event; the state is
untouched. -/
theorem unknown_message_translation (n s : String) (st : ProxyState) :
    convert_to_stream_json (.unknown n s) st =
      (.obj [("type", .str "system"), ("subtype", .str "unknown_message"),
             ("data", .obj [("message_type", .str n),
                            ("content", .str s)])], st) := rfl

/-- C3: encoding any sequence of content blocks to wire JSON with
`_convert_content_blocks` and then applying the inbound text-extraction
rule of `handle_input` yields exactly the concatenation, in order, of the
`text` fields of the `Text` blocks of the original sequence. -/
theorem content_block_text_round_trip (bs : List ContentBlock) :
    extract_text_content (convert_content_blocks (.blocks bs)) =
      .ok (text_block_concat bs) := by
  induction bs with
  | nil => rfl
  | cons b rest ih =>
    simp only [convert_content_blocks] at ih
    cases b <;>
      simp [convert_content_blocks, convert_block_list, extract_text_content,
            jGet, text_block_concat, Except.map, ih]

/-- C4: from a freshly seeded state, an upstream `init` event carrying
`data.session_id = "S1"` sets the active id to `"S1"`; a subsequent client
user message carrying `session_id = "S2"` overwrites it to `"S2"`; a later
upstream `init` event without a `session_id` field leaves it at `"S2"`
(no fallback to the locally generated id). -/
theorem session_precedence_scenario :
    (runSeq [.upstream (.system "init" [("session_id", .str "S1")])]
        (seeded_state "L")).active_session_id = .str "S1" ∧
    (runSeq [.upstream (.system "init" [("session_id", .str "S1")]),
             .inbound (.json (.obj [("type", .str "user"),
               ("message", .obj [("role", .str "user"),
                 ("content", .arr [.obj [("type", .str "text"),
                                         ("text", .str "hi")]])]),
               ("session_id", .str "S2")]))]
        (seeded_state "L")).active_session_id = .str "S2" ∧
    (runSeq [.upstream (.system "init" [("session_id", .str "S1")]),
             .inbound (.json (.obj [("type", .str "user"),
               ("message", .obj [("role", .str "user"),
                 ("content", .arr [.obj [("type", .str "text"),
                                         ("text", .str "hi")]])]),
               ("session_id", .str "S2")])),
             .upstream (.system "init" [("model", .str "m")])]
        (seeded_state "L")).active_session_id = .str "S2" :=
  ⟨rfl, rfl, rfl⟩

/-- C6: a line that is not valid JSON makes `handle_input` emit exactly one
`system`/`parse_error` record without raising and without touching state,
and the read loop then processes a valid user message on the next line
normally (here: the parse-error record followed by the upstream query for
the valid message). -/
theorem parse_error_resilience :
    (∀ raw err st, handle_input (.notJSON raw err) st =
        ([.print (parse_error_record raw err)], st)) ∧
    run_lines
        [.notJSON "not json" "Expecting value: line 1 column 1 (char 0)",
         .json (.obj [("type", .str "user"),
           ("message", .obj [("role", .str "user"),
             ("content", .arr [.obj [("type", .str "text"),
                                     ("text", .str "hello")]])]),
           ("session_id", .str "S")])]
        (seeded_state "L") =
      ([.print (parse_error_record "not json"
          "Expecting value: line 1 column 1 (char 0)"),
        .call (.query "hello" (.str "S"))],
       { session_id := "L", active_session_id := .str "S" }) :=
  ⟨fun _ _ _ => rfl, rfl⟩

/-- C7: an inbound `control_request` line with `request.subtype =
"interrupt"` makes `handle_input` invoke the upstream interrupt primitive
exactly once and then emit exactly one `control_response` line echoing the
request id, the call preceding the response; the state is untouched. -/
theorem interrupt_control_flow (rid : JValue) (st : ProxyState) :
    handle_input (.json (.obj [("type", .str "control_request"),
        ("request_id", rid),
        ("request", .obj [("subtype", .str "interrupt")])])) st =
      ([.call .interrupt, .print (control_response_record rid)], st) := rfl

/-- C8 (counterexample): a `Result` event whose own session id is present
but empty does not keep it — the envelope carries the active id instead.
Event session id `""`, active id `"A"`: the envelope's `session_id` is
`"A"`, not the event's own `""`. -/
theorem result_empty_session_id_counterexample :
    convert_to_stream_json
        (.result "success" 10 5 false 1 (some "") (.num 0) .null (.str "ok"))
        { session_id := "L", active_session_id := .str "A" } =
      (.obj [("type", .str "result"), ("subtype", .str "success"),
             ("duration_ms", .num 10), ("duration_api_ms", .num 5),
             ("is_error", .bool false), ("num_turns", .num 1),
             ("session_id", .str "A"), ("total_cost_usd", .num 0),
             ("usage", .null), ("result", .str "ok")],
       { session_id := "L", active_session_id := .str "A" }) ∧
    ("A" : String) ≠ "" :=
  ⟨rfl, by decide⟩

/-- C8 (amended): a `Result` event translates to a `type=result` envelope
whose `subtype, duration_ms, duration_api_ms, is_error, num_turns,
total_cost_usd, usage, result` are copied verbatim at the top level (no
`data` field), and whose `session_id` is the event's own session id when
present and non-empty, else the current active id; state is untouched. -/
theorem result_translation_flat (sub : String) (dms dams : Int) (ie : Bool)
    (nt : Int) (sid : Option String) (tcu us res : JValue)
    (st : ProxyState) :
    ∃ fs, convert_to_stream_json (.result sub dms dams ie nt sid tcu us res)
            st = (.obj fs, st) ∧
      jGet fs "type" = some (.str "result") ∧
      jGet fs "subtype" = some (.str sub) ∧
      jGet fs "duration_ms" = some (.num dms) ∧
      jGet fs "duration_api_ms" = some (.num dams) ∧
      jGet fs "is_error" = some (.bool ie) ∧
      jGet fs "num_turns" = some (.num nt) ∧
      jGet fs "session_id" =
        some (result_session_id_spec sid st.active_session_id) ∧
      jGet fs "total_cost_usd" = some tcu ∧
      jGet fs "usage" = some us ∧
      jGet fs "result" = some res ∧
      jGet fs "data" = none :=
  ⟨_, rfl, rfl, rfl, rfl, rfl, rfl, rfl, rfl, rfl, rfl, rfl, rfl⟩

/-- C9 (counterexample): a line that parses as valid JSON but is not an
object — here the array `[]`, whose top-level type is neither `"user"` nor
`"control_request"` — is not ignored silently: `data.get("type")` raises
`AttributeError`, and `handle_input` emits one generic `error` record. -/
theorem non_object_line_emits_error :
    handle_input (.json (.arr [])) (seeded_state "L") =
      ([.print (generic_error_record "list object has no attribute get")],
       seeded_state "L") := rfl

/-- C9 (amended): for a line parsing to a JSON *object* whose `type` is
neither `"user"` nor `"control_request"`, and for a `control_request`
object whose `request` field resolves (with `{}` as the default for an
absent field) to an object whose `subtype` is not `"interrupt"`,
`handle_input` emits no output line, makes no upstream call, and leaves
the state unchanged. -/
theorem ignored_input_noop (fs : List (String × JValue)) (st : ProxyState) :
    (jGet fs "type" ≠ some (.str "user") →
     jGet fs "type" ≠ some (.str "control_request") →
     handle_input (.json (.obj fs)) st = ([], st)) ∧
    (jGet fs "type" = some (.str "control_request") →
     ∀ rfs, (jGet fs "request").getD (.obj []) = .obj rfs →
     jGet rfs "subtype" ≠ some (.str "interrupt") →
     handle_input (.json (.obj fs)) st = ([], st)) := by
  constructor
  · intro h1 h2
    have hbody : handle_input_body (.obj fs) st = .ok ([], st) := by
      simp only [handle_input_body]
      cases hty : jGet fs "type" with
      | none => rfl
      | some v =>
        cases v with
        | str t =>
          have ht1 : ¬ t = "user" := fun h => h1 (h ▸ hty)
          have ht2 : ¬ t = "control_request" := fun h => h2 (h ▸ hty)
          simp [ht1, ht2]
        | null => rfl
        | bool b => rfl
        | num n => rfl
        | arr xs => rfl
        | obj o => rfl
    simp [handle_input, hbody]
  · intro hty rfs hreq hsub
    have hbody : handle_input_body (.obj fs) st = .ok ([], st) := by
      simp only [handle_input_body, hty, hreq]
      cases hsub2 : jGet rfs "subtype" with
      | none => simp
      | some v =>
        cases v with
        | str sub =>
          have hs : ¬ sub = "interrupt" := fun h => hsub (h ▸ hsub2)
          simp [hs]
        | null => simp
        | bool b => simp
        | num n => simp
        | arr xs => simp
        | obj o => simp
    simp [handle_input, hbody]

theorem ignored_input_noop_witness :
    handle_input (.json (.obj [("type", .str "ping")])) (seeded_state "L") =
      ([], seeded_state "L") ∧
    handle_input (.json (.obj [("type", .str "control_request"),
        ("request", .obj [("subtype", .str "cancel")])])) (seeded_state "L") =
      ([], seeded_state "L") :=
  ⟨(ignored_input_noop [("type", .str "ping")] (seeded_state "L")).1
      (by simp [jGet]) (by simp [jGet]),
   (ignored_input_noop [("type", .str "control_request"),
        ("request", .obj [("subtype", .str "cancel")])] (seeded_state "L")).2
      rfl [("subtype", .str "cancel")] rfl (by simp [jGet])⟩

/-- C10: a client user message without a `session_id` field overwrites the
active session id with the locally generated startup id — it does not
preserve an active id previously learned from an upstream init event or an
earlier client message. -/
theorem user_without_session_id_resets_active
    (fs mfs : List (String × JValue)) (st : ProxyState)
    (htype : jGet fs "type" = some (.str "user"))
    (hmsg : jGet fs "message" = some (.obj mfs))
    (hsid : jGet fs "session_id" = none) :
    (handle_input (.json (.obj fs)) st).2.active_session_id =
      .str st.session_id := by
  have hbody : (∃ ev, handle_input_body (.obj fs) st =
        .ok (ev, { st with active_session_id := .str st.session_id })) ∨
      (∃ e, handle_input_body (.obj fs) st =
        .error (e, { st with active_session_id := .str st.session_id })) := by
    cases hit : python_iter ((jGet mfs "content").getD (.arr [])) with
    | error e =>
      right
      exact ⟨e, by simp [handle_input_body, htype, hmsg, hsid, hit]⟩
    | ok blocks =>
      cases het : extract_text_content blocks with
      | error e =>
        right
        exact ⟨e, by simp [handle_input_body, htype, hmsg, hsid, hit, het]⟩
      | ok text =>
        left
        exact ⟨[.call (.query text (.str st.session_id))],
          by simp [handle_input_body, htype, hmsg, hsid, hit, het]⟩
  rcases hbody with ⟨ev, h⟩ | ⟨e, h⟩ <;> simp [handle_input, h]

theorem user_without_session_id_resets_active_witness :
    (handle_input (.json (.obj [("type", .str "user"),
        ("message", .obj [("content", .arr [])])]))
      { session_id := "L", active_session_id := .str "S2" }
      ).2.active_session_id = .str "L" :=
  user_without_session_id_resets_active
    [("type", .str "user"), ("message", .obj [("content", .arr [])])]
    [("content", .arr [])]
    { session_id := "L", active_session_id := .str "S2" } rfl rfl rfl

/-- The result state of `handle_input` on a parsed JSON line: either the
state is untouched, or the line was a user message with a dict `message`
field, and the active id was overwritten with the line's `session_id`
value (defaulting to the local id). -/
theorem handle_input_state_characterization (v : JValue) (st : ProxyState) :
    (handle_input (.json v) st).2 = st ∨
    ∃ fs mfs, v = .obj fs ∧ jGet fs "type" = some (.str "user") ∧
      jGet fs "message" = some (.obj mfs) ∧
      (handle_input (.json v) st).2 =
        { st with active_session_id :=
            (jGet fs "session_id").getD (.str st.session_id) } := by
  cases v with
  | null => left; rfl
  | bool b => left; rfl
  | num n => left; rfl
  | str s => left; rfl
  | arr xs => left; rfl
  | obj fs =>
    cases hty : jGet fs "type" with
    | none => left; simp [handle_input, handle_input_body, hty]
    | some v' =>
      cases v' with
      | str t =>
        by_cases htu : t = "user"
        · subst htu
          cases hmsg : jGet fs "message" with
          | none => left; simp [handle_input, handle_input_body, hty, hmsg]
          | some md =>
            cases md with
            | obj mfs =>
              right
              refine ⟨fs, mfs, rfl, hty, hmsg, ?_⟩
              cases hit : python_iter ((jGet mfs "content").getD (.arr [])) with
              | error e =>
                simp [handle_input, handle_input_body, hty, hmsg, hit]
              | ok blocks =>
                cases het : extract_text_content blocks with
                | error e =>
                  simp [handle_input, handle_input_body, hty, hmsg, hit, het]
                | ok text =>
                  simp [handle_input, handle_input_body, hty, hmsg, hit, het]
            | null => left; simp [handle_input, handle_input_body, hty, hmsg]
            | bool b => left; simp [handle_input, handle_input_body, hty, hmsg]
            | num n => left; simp [handle_input, handle_input_body, hty, hmsg]
            | str s => left; simp [handle_input, handle_input_body, hty, hmsg]
            | arr xs => left; simp [handle_input, handle_input_body, hty, hmsg]
        · by_cases htc : t = "control_request"
          · subst htc
            cases hreq : (jGet fs "request").getD (.obj []) with
            | obj rfs =>
              cases hsub : jGet rfs "subtype" with
              | none =>
                left; simp [handle_input, handle_input_body, hty, hreq, hsub]
              | some w =>
                cases w with
                | str sub =>
                  by_cases hsi : sub = "interrupt"
                  · subst hsi
                    left
                    simp [handle_input, handle_input_body, hty, hreq, hsub]
                  · left
                    simp [handle_input, handle_input_body, hty, hreq, hsub,
                          hsi]
                | null =>
                  left; simp [handle_input, handle_input_body, hty, hreq, hsub]
                | bool b =>
                  left; simp [handle_input, handle_input_body, hty, hreq, hsub]
                | num n =>
                  left; simp [handle_input, handle_input_body, hty, hreq, hsub]
                | arr xs =>
                  left; simp [handle_input, handle_input_body, hty, hreq, hsub]
                | obj o =>
                  left; simp [handle_input, handle_input_body, hty, hreq, hsub]
            | null => left; simp [handle_input, handle_input_body, hty, hreq]
            | bool b => left; simp [handle_input, handle_input_body, hty, hreq]
            | num n => left; simp [handle_input, handle_input_body, hty, hreq]
            | str s => left; simp [handle_input, handle_input_body, hty, hreq]
            | arr xs => left; simp [handle_input, handle_input_body, hty, hreq]
          · left; simp [handle_input, handle_input_body, hty, htu, htc]
      | null => left; simp [handle_input, handle_input_body, hty]
      | bool b => left; simp [handle_input, handle_input_body, hty]
      | num n => left; simp [handle_input, handle_input_body, hty]
      | arr xs => left; simp [handle_input, handle_input_body, hty]
      | obj o => left; simp [handle_input, handle_input_body, hty]

/-- Translating one upstream event keeps the local id untouched and, when
the event's session-id payload is well-formed (`good_event`), keeps the
active id a non-empty string. -/
theorem convert_preserves_good_state (m : SDKMessage) (st : ProxyState)
    (hst : good_state st) (he : good_event (.upstream m)) :
    good_state (convert_to_stream_json m st).2 := by
  cases m with
  | user c => exact hst
  | assistant c model => exact hst
  | result sub dms dams ie nt sid tcu us res => exact hst
  | unknown n s => exact hst
  | raising n e => exact hst
  | system sub data =>
    by_cases hs : sub = "init"
    · subst hs
      have hgood := he rfl
      cases hsid : jGet data "session_id" with
      | some w =>
        rw [hsid] at hgood
        cases w with
        | str s =>
          simp only [convert_to_stream_json, convert_to_stream_json_body,
            hsid]
          exact ⟨hst.1, by simpa [good_state, good_active] using hgood⟩
        | null => exact hgood.elim
        | bool b => exact hgood.elim
        | num n => exact hgood.elim
        | arr xs => exact hgood.elim
        | obj o => exact hgood.elim
      | none =>
        obtain ⟨hl, ha⟩ := hst
        cases hact : st.active_session_id with
        | str s =>
          rw [hact] at ha
          have htr : jTruthy st.active_session_id = true := by
            rw [hact]
            simpa [jTruthy] using ha
          have hstate :
              (convert_to_stream_json (.system "init" data) st).2 = st := by
            simp [convert_to_stream_json, convert_to_stream_json_body, hsid,
              htr]
          rw [hstate]
          exact ⟨hl, by rw [hact]; exact ha⟩
        | null => rw [hact] at ha; exact ha.elim
        | bool b => rw [hact] at ha; exact ha.elim
        | num n => rw [hact] at ha; exact ha.elim
        | arr xs => rw [hact] at ha; exact ha.elim
        | obj o => rw [hact] at ha; exact ha.elim
    · simp only [convert_to_stream_json, convert_to_stream_json_body,
        if_neg hs]
      exact hst

/-- One scheduler step preserves `good_state` when the event is
well-formed. -/
theorem step_preserves_good_state (e : SysEvent) (st : ProxyState)
    (hst : good_state st) (he : good_event e) :
    good_state (step e st).2 := by
  cases e with
  | upstream m => exact convert_preserves_good_state m st hst he
  | inbound l =>
    cases l with
    | notJSON raw err => exact hst
    | json v =>
      rcases handle_input_state_characterization v st with h |
        ⟨fs, mfs, hv, hty, hmsg, h⟩
      · show good_state (handle_input (.json v) st).2
        rw [h]; exact hst
      · subst hv
        show good_state (handle_input (.json (.obj fs)) st).2
        rw [h]
        refine ⟨hst.1, ?_⟩
        have hgood := he hty
        cases hsidv : jGet fs "session_id" with
        | none => exact hst.1
        | some w =>
          rw [hsidv] at hgood
          cases w with
          | str s => exact hgood
          | null => exact hgood.elim
          | bool b => exact hgood.elim
          | num n => exact hgood.elim
          | arr xs => exact hgood.elim
          | obj o => exact hgood.elim

/-- Processing any sequence of well-formed events from a `good_state`
stays in `good_state`. -/
theorem runSeq_preserves_good_state (evs : List SysEvent) :
    ∀ st, good_state st → (∀ e ∈ evs, good_event e) →
      good_state (runSeq evs st) := by
  induction evs with
  | nil => intro st hst _; exact hst
  | cons e rest ih =>
    intro st hst h
    exact ih _ (step_preserves_good_state e st hst
        (h e (List.mem_cons_self e rest)))
      (fun x hx => h x (List.mem_cons_of_mem e hx))

/-- C5 (counterexample): the invariant fails as stated — after the runtime
seeds the active id, a client user message carrying an explicit
`"session_id": null` field sets the active id back to null
(`dict.get` returns the present null value, and `handle_input` stores it
unconditionally). -/
theorem active_session_id_null_counterexample :
    (runSeq [.inbound (.json (.obj [("type", .str "user"),
        ("message", .obj [("content", .arr [])]),
        ("session_id", .null)]))]
      (seeded_state "local-id")).active_session_id = .null := rfl

/-- C5 (amended): once the runtime has seeded the active id from the
(non-empty) locally generated id, the active id stays a non-empty string
over every sequence of inbound lines and upstream events in which each
client user message carries either no `session_id` field or a non-empty
string one, and each upstream `init` event's data carries either no
`session_id` field or a non-empty string one. -/
theorem active_session_id_nonempty_invariant (localId : String)
    (evs : List SysEvent) (h0 : localId ≠ "")
    (h : ∀ e ∈ evs, good_event e) :
    good_state (runSeq evs (seeded_state localId)) :=
  runSeq_preserves_good_state evs (seeded_state localId) ⟨h0, h0⟩ h

theorem active_session_id_nonempty_invariant_witness :
    good_state (runSeq
      [.upstream (.system "init" [("session_id", .str "S1")]),
       .inbound (.notJSON "not json" "Expecting value")]
      (seeded_state "L")) :=
  active_session_id_nonempty_invariant "L"
    [.upstream (.system "init" [("session_id", .str "S1")]),
     .inbound (.notJSON "not json" "Expecting value")]
    (by decide)
    (fun e he => by
      rw [List.mem_cons] at he
      rcases he with rfl | he
      · intro _
        simp [jGet, good_sid]
      · rw [List.mem_cons] at he
        rcases he with rfl | he
        · exact trivial
        · exact absurd he (List.not_mem_nil e))

end ClaudeProxy
